import Mathlib

/-!
Verification of the `oauth_dispatch` view layer and the certificates API of
this edx-platform fragment.

Part 1 embeds `openedx/core/djangoapps/oauth_dispatch/views.py` directly:
the dispatching base class, the token-type extraction, and the JWT payload
rewrite.  Part 2 models the certificates API
(`lms/djangoapps/certificates/api.py`), whose implementation is absent from
this fragment (only its test suite is present), from the specification and
the behaviour its tests pin down.
-/

namespace OAuthDispatch

/-- An HTTP request as the dispatcher sees it: a method, the GET and POST
parameter mappings, and the `META` header mapping.  Parameter mappings are
association lists, looked up by first match. -/
structure Request where
  method : String
  getParams : List (String × String)
  postParams : List (String × String)
  meta : List (String × String)
deriving Repr, DecidableEq

/-- `mapping.get(key)`: first value bound to `key`, if any. -/
def assocGet (l : List (String × String)) (k : String) : Option String :=
  (l.find? (fun p => p.1 = k)).map Prod.snd

/-- The OAuth handling libraries a backend can belong to.  The docstrings in
`views.py` mention django-oauth-toolkit (DOT) and django-oauth2-provider
(DOP), so both appear as backend values. -/
inductive Backend where
  | dot
  | dop
deriving Repr, DecidableEq

/-- An adapter for an OAuth handling library; it exposes its `backend`. -/
structure Adapter where
  backend : Backend
deriving Repr, DecidableEq

/-- `adapters.DOTAdapter()`: the class attribute `dot_adapter` of
`_DispatchingView`. -/
def dot_adapter : Adapter := { backend := Backend.dot }

/-- The view handlers that the concrete `_DispatchingView` subclasses
register as their `dot_view`. -/
inductive ViewHandler where
  | tokenView
  | edxOAuth2AuthorizationView
  | dotAccessTokenExchangeView
  | revokeTokenView
deriving Repr, DecidableEq

/-- A `_DispatchingView` subclass is determined by the `dot_view` it
registers. -/
structure DispatchingView where
  dot_view : ViewHandler
deriving Repr, DecidableEq

/-- `_DispatchingView._get_client_id`: the `client_id` from the GET
parameters for a GET request, from the POST parameters otherwise. -/
def get_client_id (req : Request) : Option String :=
  if req.method = "GET" then assocGet req.getParams "client_id"
  else assocGet req.postParams "client_id"

/-- `_DispatchingView.get_adapter`: reads the client id (the source only
reports it to monitoring) and returns `dot_adapter` unconditionally. -/
def get_adapter (_v : DispatchingView) (req : Request) : Adapter :=
  let _client_id := get_client_id req
  dot_adapter

/-- `_DispatchingView.select_backend`: the backend of the adapter chosen by
`get_adapter`. -/
def select_backend (v : DispatchingView) (req : Request) : Backend :=
  (get_adapter v req).backend

/-- The lookup error raised when a backend has no registered view
(`KeyError` in the source). -/
inductive DispatchError where
  | keyError (msg : String)
deriving Repr, DecidableEq

/-- `_DispatchingView.get_view_for_backend`: the registered `dot_view` when
the backend is the DOT adapter's backend, otherwise a `KeyError`. -/
def get_view_for_backend (v : DispatchingView) (backend : Backend) :
    Except DispatchError ViewHandler :=
  if backend = dot_adapter.backend then Except.ok v.dot_view
  else Except.error (DispatchError.keyError "Failed to dispatch view. Invalid backend")

/-- `AccessTokenView` as a `_DispatchingView`: its `dot_view` is
`dot_views.TokenView`. -/
def accessTokenView : DispatchingView := { dot_view := ViewHandler.tokenView }

/-- `AuthorizationView`: its `dot_view` is `EdxOAuth2AuthorizationView`. -/
def authorizationView : DispatchingView :=
  { dot_view := ViewHandler.edxOAuth2AuthorizationView }

/-- `_get_token_type`: the `token_type` POST parameter if supplied, else the
`HTTP_X_TOKEN_TYPE` header, else the literal `no_token_type_supplied`;
lowercased. -/
def get_token_type (req : Request) : String :=
  let default_token_type := (assocGet req.meta "HTTP_X_TOKEN_TYPE").getD "no_token_type_supplied"
  ((assocGet req.postParams "token_type").getD default_token_type).toLower

/-- An HTTP response: a status code and a body. -/
structure HttpResponse where
  status_code : Nat
  content : String
deriving Repr, DecidableEq

/-- `AccessTokenView.dispatch` after the backend view has produced
`response`: when the status is 200 and the requested token type is `jwt`,
the body is replaced by the JWT content produced by
`_get_jwt_content_from_access_token_content` (abstracted as `transform`,
since it JSON-decodes the body and calls the external JWT library);
otherwise the response is returned unchanged. -/
def accessTokenDispatch (transform : Request → HttpResponse → String)
    (req : Request) (response : HttpResponse) : HttpResponse :=
  if response.status_code = 200 ∧ get_token_type req = "jwt" then
    { response with content := transform req response }
  else
    response

/-- A JSON scalar value appearing in a token payload. -/
inductive JVal where
  | s (v : String)
  | n (v : Nat)
  | b (v : Bool)
deriving Repr, DecidableEq

/-- A JSON object (Python `dict`), as an association list; lookups take the
first binding. -/
def Dict : Type := List (String × JVal)

/-- `d[k]` as an optional lookup. -/
def dictGet (d : Dict) (k : String) : Option JVal :=
  (d.find? (fun p => p.1 = k)).map Prod.snd

/-- `d[k] = v` on a Python dict: the binding for `k` is replaced (a dict has
one binding per key), a fresh key is appended. -/
def dictSet (d : Dict) (k : String) (v : JVal) : Dict :=
  (d.filter (fun p => ¬(p.1 = k))) ++ [(k, v)]

/-- `_get_jwt_dict_from_access_token_dict`: copies the token dict, creates
the JWT from that copy (creation itself lives in the external
`oauth_dispatch.jwt` module and is abstracted as `create_jwt_from_token`),
then overrides `access_token`, `token_type` and `expires_in`; the expiry is
the configured `get_jwt_access_token_expire_seconds()`, abstracted as
`expire_seconds`. -/
def get_jwt_dict_from_access_token_dict (create_jwt_from_token : Dict → String)
    (expire_seconds : Nat) (token_dict : Dict) : Dict :=
  let jwt_dict := token_dict
  let jwt := create_jwt_from_token jwt_dict
  dictSet (dictSet (dictSet jwt_dict "access_token" (JVal.s jwt))
    "token_type" (JVal.s "JWT")) "expires_in" (JVal.n expire_seconds)

end OAuthDispatch

namespace Certificates

/-- The statuses a generated certificate can take
(`CertificateStatuses` in `lms/djangoapps/certificates/models.py`, absent
from this fragment; the constructors are the statuses the test suite
exercises). -/
inductive CertStatus where
  | downloadable
  | generating
  | error
  | notpassing
  | unverified
  | deleted
  | unavailable
deriving Repr, DecidableEq

/-- Modelled from the spec: a `GeneratedCertificate` row (user↔certificate,
course↔certificate relationships of the data model), with the fields the
certificate query API reads.  Users and courses are identified by their
keys. -/
structure GeneratedCert where
  id : Nat
  user : Nat
  course_id : String
  status : CertStatus
  download_url : String
  verify_uuid : String
deriving Repr, DecidableEq

/-- Modelled from the spec: a `CertificateAllowlist` row — a per-course
override permitting a learner to receive a certificate; `allowlist` is the
enabled flag of the entry. -/
structure AllowlistEntry where
  id : Nat
  user : Nat
  course_id : String
  allowlist : Bool
  notes : String
deriving Repr, DecidableEq

/-- Modelled from the spec: a `CertificateInvalidation` row — a record
marking an otherwise-valid certificate as void, linked to a generated
certificate and carrying an `active` flag. -/
structure InvalidationEntry where
  id : Nat
  generated_certificate_id : Nat
  invalidated_by : Nat
  active : Bool
  notes : String
deriving Repr, DecidableEq

/-- Modelled from the spec: the persistent state the certificates API
(`lms/djangoapps/certificates/api.py`, absent from this fragment) operates
on: the certificate, allowlist and invalidation tables, the history of
`CertificateGenerationConfiguration` rows (newest first, as in a
`ConfigurationModel` the latest row is current), and the history of
per-course self-generation settings written by `set_cert_generation_enabled`
(newest first). -/
structure CertState where
  certificates : List GeneratedCert
  allowlist : List AllowlistEntry
  invalidations : List InvalidationEntry
  genConfigs : List Bool
  courseGenSettings : List (String × Bool)
deriving Repr, DecidableEq

/-- Modelled from the spec: `get_certificate_for_user` (missing
`api.py`) — the certificate of the given user for the given course-run, or
`None` when the user has no certificate for the course. -/
def get_certificate_for_user (s : CertState) (user : Nat) (course_id : String) :
    Option GeneratedCert :=
  s.certificates.find? (fun g => g.user = user ∧ g.course_id = course_id)

/-- Modelled from the spec: `get_certificates_for_user` (missing
`api.py`) — all certificates of the given user, the empty list when there
are none. -/
def get_certificates_for_user (s : CertState) (user : Nat) : List GeneratedCert :=
  s.certificates.filter (fun g => g.user = user)

/-- Modelled from the spec: `get_allowlist_entry` (missing `api.py`) — the
allowlist entry of the given user in the given course-run, or `None` (after
logging) when no entry exists. -/
def get_allowlist_entry (s : CertState) (user : Nat) (course_id : String) :
    Option AllowlistEntry :=
  s.allowlist.find? (fun e => e.user = user ∧ e.course_id = course_id)

/-- Modelled from the spec: `get_certificate_invalidation_entry` (missing
`api.py`) — the invalidation entry linked to the given certificate, or
`None` (after logging) when none exists. -/
def get_certificate_invalidation_entry (s : CertState) (cert : GeneratedCert) :
    Option InvalidationEntry :=
  s.invalidations.find? (fun e => e.generated_certificate_id = cert.id)

/-- Modelled from the spec: `is_on_allowlist` (missing `api.py`) — whether
the user has an allowlist entry with the enabled flag set for the
course-run. -/
def is_on_allowlist (s : CertState) (user : Nat) (course_id : String) : Bool :=
  s.allowlist.any (fun e => decide (e.user = user) && decide (e.course_id = course_id) && e.allowlist)

/-- Modelled from the spec: `get_allowlisted_users` (missing `api.py`) —
the users having an enabled allowlist entry for the course-run. -/
def get_allowlisted_users (s : CertState) (course_id : String) : List Nat :=
  (s.allowlist.filter (fun e => decide (e.course_id = course_id) && e.allowlist)).map
    (fun e => e.user)

/-- Modelled from the spec: `create_or_update_certificate_allowlist_entry`
(missing `api.py`) — writes the allowlist entry of the user in the
course-run, replacing an existing entry (same user and course keep a single
row), and returns it. -/
def create_or_update_certificate_allowlist_entry (s : CertState) (user : Nat)
    (course_id : String) (notes : String) (allowlist : Bool := true) :
    AllowlistEntry × CertState :=
  let fresh_id := (s.allowlist.map (fun e => e.id)).foldr max 0 + 1
  let entry : AllowlistEntry :=
    match s.allowlist.find? (fun e => e.user = user ∧ e.course_id = course_id) with
    | some old => { old with notes := notes, allowlist := allowlist }
    | none =>
      { id := fresh_id, user := user, course_id := course_id,
        allowlist := allowlist, notes := notes }
  (entry,
   { s with allowlist :=
      (s.allowlist.filter (fun e => ¬(e.user = user ∧ e.course_id = course_id))) ++ [entry] })

/-- Modelled from the spec: `remove_allowlist_entry` (missing `api.py`) —
when the user has an allowlist entry for the course-run, deletes it, marks
any generated certificate of the user for that course-run `unavailable` and
returns `True`; otherwise returns `False` and leaves the state unchanged. -/
def remove_allowlist_entry (s : CertState) (user : Nat) (course_id : String) :
    Bool × CertState :=
  match s.allowlist.find? (fun e => e.user = user ∧ e.course_id = course_id) with
  | some _ =>
    (true,
     { s with
        allowlist := s.allowlist.filter (fun e => ¬(e.user = user ∧ e.course_id = course_id)),
        certificates := s.certificates.map (fun g =>
          if g.user = user ∧ g.course_id = course_id then
            { g with status := CertStatus.unavailable }
          else g) })
  | none => (false, s)

/-- Modelled from the spec: `create_certificate_invalidation_entry`
(missing `api.py`) — writes the active invalidation entry linked to the
certificate, replacing any existing entry for the same certificate so that
a certificate has at most one active invalidation, and returns it. -/
def create_certificate_invalidation_entry (s : CertState) (cert : GeneratedCert)
    (invalidated_by : Nat) (notes : String) : InvalidationEntry × CertState :=
  let fresh_id := (s.invalidations.map (fun e => e.id)).foldr max 0 + 1
  let entry : InvalidationEntry :=
    match s.invalidations.find? (fun e => e.generated_certificate_id = cert.id) with
    | some old =>
      { old with invalidated_by := invalidated_by, notes := notes, active := true }
    | none =>
      { id := fresh_id, generated_certificate_id := cert.id,
        invalidated_by := invalidated_by, active := true, notes := notes }
  (entry,
   { s with invalidations :=
      (s.invalidations.filter (fun e => ¬(e.generated_certificate_id = cert.id))) ++ [entry] })

/-- Modelled from the spec: `set_cert_generation_enabled` (missing
`api.py`) — records a new per-course self-generation setting; the newest
row for a course is the one in force. -/
def set_cert_generation_enabled (s : CertState) (course_id : String) (enabled : Bool) :
    CertState :=
  { s with courseGenSettings := (course_id, enabled) :: s.courseGenSettings }

/-- Modelled from the spec: the current `CertificateGenerationConfiguration`
(missing `models.py`) — the newest configuration row, disabled when none
exists. -/
def currentGenConfigEnabled (s : CertState) : Bool :=
  (s.genConfigs.head?).getD false

/-- Modelled from the spec: the per-course self-generation flag (missing
`models.py`) — the newest setting row recorded for the course, disabled
when none exists. -/
def latestCourseGenSetting (s : CertState) (course_id : String) : Bool :=
  ((s.courseGenSettings.find? (fun p => p.1 = course_id)).map Prod.snd).getD false

/-- Modelled from the spec: `cert_generation_enabled` (missing `api.py`) —
self-generated certificates are enabled for a course exactly when the
global configuration is enabled and the course's newest self-generation
setting is enabled. -/
def cert_generation_enabled (s : CertState) (course_id : String) : Bool :=
  currentGenConfigEnabled s && latestCourseGenSetting s course_id

/-- The summary returned by `certificate_downloadable_status`. -/
structure DownloadableStatus where
  is_downloadable : Bool
  is_generating : Bool
  is_unverified : Bool
  download_url : Option String
  uuid : Option String
deriving Repr, DecidableEq

/-- Modelled from the spec: `certificate_downloadable_status` (missing
`api.py`) — summarises the user's certificate for the course-run; a
certificate whose generation errored reports `is_generating` exactly like
one still generating. -/
def certificate_downloadable_status (s : CertState) (user : Nat) (course_id : String) :
    DownloadableStatus :=
  match get_certificate_for_user s user course_id with
  | none =>
    { is_downloadable := false, is_generating := false, is_unverified := false,
      download_url := none, uuid := none }
  | some g =>
    { is_downloadable := decide (g.status = CertStatus.downloadable),
      is_generating :=
        decide (g.status = CertStatus.generating) || decide (g.status = CertStatus.error),
      is_unverified := decide (g.status = CertStatus.unverified),
      download_url :=
        if g.status = CertStatus.downloadable then some g.download_url else none,
      uuid := if g.status = CertStatus.downloadable then some g.verify_uuid else none }

/-- A certificate has at most one active invalidation: for every
certificate id, at most one invalidation entry linked to it is active. -/
def atMostOneActiveInvalidation (s : CertState) : Prop :=
  ∀ cid : Nat,
    (s.invalidations.countP
      (fun e => decide (e.generated_certificate_id = cid) && e.active)) ≤ 1

/-- A concrete certificate used by the witnesses: user 2's downloadable
certificate. -/
def certOfUser2 : GeneratedCert :=
  { id := 7, user := 2, course_id := "course-v1:edX+Demo+2026",
    status := CertStatus.downloadable, download_url := "http://cert.pdf",
    verify_uuid := "uuid-7" }

/-- A concrete state used by the witnesses: user 2 has a certificate, user 1
has an allowlist entry, nothing else. -/
def stateA : CertState :=
  { certificates := [certOfUser2],
    allowlist := [{ id := 3, user := 1, course_id := "course-v1:edX+Demo+2026",
                    allowlist := true, notes := "Testing!" }],
    invalidations := [], genConfigs := [true], courseGenSettings := [] }

/-- A concrete certificate used by the witnesses: user 1's downloadable
certificate. -/
def certOfUser1 : GeneratedCert :=
  { id := 9, user := 1, course_id := "course-v1:edX+Demo+2026",
    status := CertStatus.downloadable, download_url := "http://cert.pdf",
    verify_uuid := "uuid-9" }

/-- A concrete state used by the witnesses: user 1 has both an allowlist
entry and a downloadable certificate for the same course-run. -/
def stateB : CertState :=
  { certificates := [certOfUser1],
    allowlist := [{ id := 3, user := 1, course_id := "course-v1:edX+Demo+2026",
                    allowlist := true, notes := "Testing!" }],
    invalidations := [], genConfigs := [true], courseGenSettings := [] }

/-- A concrete state used by the witnesses: user 1's certificate generation
errored. -/
def stateErr : CertState :=
  { certificates := [{ id := 4, user := 1, course_id := "course-v1:edX+Demo+2026",
                       status := CertStatus.error,
                       download_url := "", verify_uuid := "" }],
    allowlist := [], invalidations := [], genConfigs := [true],
    courseGenSettings := [] }

end Certificates

section ClaimTheorems

open OAuthDispatch Certificates

/-- Setting a key in a dict makes lookup of that key return the new
value. -/
theorem dictGet_dictSet_same (d : Dict) (k : String) (v : JVal) :
    dictGet (dictSet d k v) k = some v := by
  simp [dictGet, dictSet]

/-- Setting a key in a dict leaves lookups of every other key unchanged. -/
theorem dictGet_dictSet_other (d : Dict) (k k' : String) (v : JVal)
    (hne : k' ≠ k) : dictGet (dictSet d k v) k' = dictGet d k' := by
  have hfun : (fun a : String × JVal => !decide (a.1 = k) && decide (a.1 = k')) =
      (fun p : String × JVal => decide (p.1 = k')) := by
    funext a
    by_cases hq : a.1 = k'
    · have hk : ¬ a.1 = k := by rw [hq]; exact hne
      simp [hq, hk, hne]
    · simp [hq]
  simp [dictGet, dictSet, Ne.symm hne]
  rw [hfun]

/-- Claim C1, counterexample: two requests with different client identifiers
are dispatched to the same backend, and no pair of requests can select
different backends — `select_backend` does not depend on the client
identifier, refuting "different client identifiers can select different
handlers". -/
theorem claim_C1_counterexample :
    (select_backend accessTokenView
        { method := "POST", getParams := [],
          postParams := [("client_id", "dot-app-client-id")], meta := [] } =
      select_backend accessTokenView
        { method := "POST", getParams := [],
          postParams := [("client_id", "dop-app-client-id")], meta := [] }) ∧
    ¬ ∃ r₁ r₂ : Request,
        select_backend accessTokenView r₁ ≠ select_backend accessTokenView r₂ := by
  refine ⟨rfl, ?_⟩
  rintro ⟨r₁, r₂, h⟩
  exact h rfl

/-- Claim C1, amended: `select_backend` is a (constant) function of the
request: whatever the client identifier, it returns the DOT adapter's
backend, and the dispatcher always routes to the single registered handler,
the class's `dot_view`. -/
theorem claim_C1_select_backend_constant (v : DispatchingView) (r : Request) :
    select_backend v r = dot_adapter.backend ∧
      get_view_for_backend v (select_backend v r) = Except.ok v.dot_view :=
  ⟨rfl, rfl⟩

/-- Claim C2: `AccessTokenView.dispatch` replaces the response body by the
JWT content exactly when the backend response has status 200 and the
requested token type — the `token_type` POST parameter, or else the
`HTTP_X_TOKEN_TYPE` header, or else the fallback, lowercased — equals
`jwt`; in every other case the response is returned unchanged. -/
theorem claim_C2_jwt_rewrite_iff (transform : Request → HttpResponse → String)
    (req : Request) (response : HttpResponse) :
    (response.status_code = 200 ∧
        ((assocGet req.postParams "token_type").getD
          ((assocGet req.meta "HTTP_X_TOKEN_TYPE").getD
            "no_token_type_supplied")).toLower = "jwt" →
      accessTokenDispatch transform req response =
        { response with content := transform req response }) ∧
    (¬ (response.status_code = 200 ∧
        ((assocGet req.postParams "token_type").getD
          ((assocGet req.meta "HTTP_X_TOKEN_TYPE").getD
            "no_token_type_supplied")).toLower = "jwt") →
      accessTokenDispatch transform req response = response) := by
  constructor
  · intro h
    unfold accessTokenDispatch
    rw [if_pos]
    exact h
  · intro h
    unfold accessTokenDispatch
    rw [if_neg]
    exact h

/-- Claim C2, witness: a 200 response to a request asking for token type
`JWT` has its body rewritten. -/
theorem claim_C2_witness :
    accessTokenDispatch (fun _ _ => "jwt-body")
      { method := "POST", getParams := [],
        postParams := [("token_type", "JWT")], meta := [] }
      { status_code := 200, content := "opaque-body" } =
      { status_code := 200, content := "jwt-body" } :=
  (claim_C2_jwt_rewrite_iff (fun _ _ => "jwt-body")
    { method := "POST", getParams := [],
      postParams := [("token_type", "JWT")], meta := [] }
    { status_code := 200, content := "opaque-body" }).1
    ⟨rfl, by simp [assocGet, String.toLower, String.map_eq]⟩

/-- Claim C3: the JWT payload transformation sets `access_token` to the
created JWT, `token_type` to `JWT` and `expires_in` to the configured
expiry, and every other key keeps its original value. -/
theorem claim_C3_jwt_dict_fields (create_jwt_from_token : Dict → String)
    (expire_seconds : Nat) (token_dict : Dict) :
    dictGet (get_jwt_dict_from_access_token_dict create_jwt_from_token
        expire_seconds token_dict) "access_token" =
      some (JVal.s (create_jwt_from_token token_dict)) ∧
    dictGet (get_jwt_dict_from_access_token_dict create_jwt_from_token
        expire_seconds token_dict) "token_type" = some (JVal.s "JWT") ∧
    dictGet (get_jwt_dict_from_access_token_dict create_jwt_from_token
        expire_seconds token_dict) "expires_in" = some (JVal.n expire_seconds) ∧
    (∀ k : String, k ≠ "access_token" → k ≠ "token_type" → k ≠ "expires_in" →
      dictGet (get_jwt_dict_from_access_token_dict create_jwt_from_token
        expire_seconds token_dict) k = dictGet token_dict k) := by
  unfold get_jwt_dict_from_access_token_dict
  refine ⟨?_, ?_, ?_, ?_⟩
  · rw [dictGet_dictSet_other _ _ _ _ (by decide),
      dictGet_dictSet_other _ _ _ _ (by decide), dictGet_dictSet_same]
  · rw [dictGet_dictSet_other _ _ _ _ (by decide), dictGet_dictSet_same]
  · rw [dictGet_dictSet_same]
  · intro k h₁ h₂ h₃
    rw [dictGet_dictSet_other _ _ _ _ h₃, dictGet_dictSet_other _ _ _ _ h₂,
      dictGet_dictSet_other _ _ _ _ h₁]

/-- Claim C3, witness: on a payload holding an opaque token and a `scope`
key, the transformation rewrites the three JWT fields and keeps `scope`. -/
theorem claim_C3_witness :
    dictGet (get_jwt_dict_from_access_token_dict (fun _ => "signed-jwt") 36000
        [("access_token", JVal.s "opaque"), ("scope", JVal.s "read")])
      "scope" = some (JVal.s "read") ∧
    dictGet (get_jwt_dict_from_access_token_dict (fun _ => "signed-jwt") 36000
        [("access_token", JVal.s "opaque"), ("scope", JVal.s "read")])
      "token_type" = some (JVal.s "JWT") := by
  have h := claim_C3_jwt_dict_fields (fun _ => "signed-jwt") 36000
    [("access_token", JVal.s "opaque"), ("scope", JVal.s "read")]
  exact ⟨(h.2.2.2 "scope" (by decide) (by decide) (by decide)).trans (by rfl), h.2.1⟩

/-- Claim C4: `get_view_for_backend` returns the configured DOT view when
the backend is the DOT adapter's backend, and raises a `KeyError` for every
other backend value; no other outcome is possible. -/
theorem claim_C4_get_view_for_backend_total (v : DispatchingView) (b : Backend) :
    (b = dot_adapter.backend ∧ get_view_for_backend v b = Except.ok v.dot_view) ∨
    (b ≠ dot_adapter.backend ∧
      ∃ msg, get_view_for_backend v b = Except.error (DispatchError.keyError msg)) := by
  by_cases hb : b = dot_adapter.backend
  · exact Or.inl ⟨hb, by simp [get_view_for_backend, hb]⟩
  · exact Or.inr ⟨hb,
      ⟨"Failed to dispatch view. Invalid backend", by simp [get_view_for_backend, hb]⟩⟩

/-- Claim C5: every "not found" case of the certificate query API is a
`None` or empty-collection return: no certificate for the user and course
gives `None`, no certificates for the user gives the empty list, and a
missing allowlist or invalidation entry gives `None`. -/
theorem claim_C5_not_found_returns_none (s : CertState) (u : Nat) (c : String)
    (cert : GeneratedCert) :
    ((∀ g ∈ s.certificates, ¬(g.user = u ∧ g.course_id = c)) →
      get_certificate_for_user s u c = none) ∧
    ((∀ g ∈ s.certificates, g.user ≠ u) → get_certificates_for_user s u = []) ∧
    ((∀ e ∈ s.allowlist, ¬(e.user = u ∧ e.course_id = c)) →
      get_allowlist_entry s u c = none) ∧
    ((∀ e ∈ s.invalidations, e.generated_certificate_id ≠ cert.id) →
      get_certificate_invalidation_entry s cert = none) := by
  refine ⟨?_, ?_, ?_, ?_⟩
  · intro h
    simp only [get_certificate_for_user, List.find?_eq_none]
    intro g hg
    simpa using h g hg
  · intro h
    simp only [get_certificates_for_user, List.filter_eq_nil_iff]
    intro g hg
    simpa using h g hg
  · intro h
    simp only [get_allowlist_entry, List.find?_eq_none]
    intro e he
    simpa using h e he
  · intro h
    simp only [get_certificate_invalidation_entry, List.find?_eq_none]
    intro e he
    simpa using h e he

/-- Claim C5, witness: in a state whose only certificate belongs to user 2
and whose only allowlist entry belongs to a different course, the lookups
for user 1 (and for user 2's certificate's invalidation) report "not found"
as `None`/`[]`. -/
theorem claim_C5_witness :
    get_certificate_for_user stateA 1 "course-v1:edX+Demo+2026" = none ∧
    get_certificates_for_user stateA 1 = [] ∧
    get_allowlist_entry stateA 1 "course-v1:edX+Other+2026" = none ∧
    get_certificate_invalidation_entry stateA certOfUser2 = none := by
  have h₁ := claim_C5_not_found_returns_none stateA 1 "course-v1:edX+Demo+2026" certOfUser2
  have h₂ := claim_C5_not_found_returns_none stateA 1 "course-v1:edX+Other+2026" certOfUser2
  exact ⟨h₁.1 (by decide), h₁.2.1 (by decide), h₂.2.2.1 (by decide), h₁.2.2.2 (by decide)⟩

/-- The invalidation entry written by `create_certificate_invalidation_entry`
is linked to the certificate and active, and the new invalidation table is
the old one with the certificate's previous entries replaced by it. -/
theorem create_invalidation_shape (s : CertState) (cert : GeneratedCert)
    (staff : Nat) (notes : String) :
    (create_certificate_invalidation_entry s cert staff notes).1.generated_certificate_id
        = cert.id ∧
    (create_certificate_invalidation_entry s cert staff notes).1.active = true ∧
    (create_certificate_invalidation_entry s cert staff notes).2.invalidations =
      (s.invalidations.filter (fun e => ¬(e.generated_certificate_id = cert.id))) ++
        [(create_certificate_invalidation_entry s cert staff notes).1] := by
  unfold create_certificate_invalidation_entry
  cases hfind : s.invalidations.find? (fun e => e.generated_certificate_id = cert.id) with
  | none => simp
  | some old =>
    have hp := List.find?_some hfind
    simp only [decide_eq_true_eq] at hp
    simp [hp]

/-- `remove_allowlist_entry` never touches the invalidation table. -/
theorem remove_allowlist_entry_invalidations (s : CertState) (u : Nat) (c : String) :
    (remove_allowlist_entry s u c).2.invalidations = s.invalidations := by
  unfold remove_allowlist_entry
  cases s.allowlist.find? (fun e => e.user = u ∧ e.course_id = c) <;> rfl

/-- Replacing all invalidation entries of one certificate by a single active
entry for that certificate keeps every certificate at ≤ 1 active
invalidation. -/
theorem atMostOne_after_replace (l : List InvalidationEntry) (e : InvalidationEntry)
    (cid₀ : Nat) (he : e.generated_certificate_id = cid₀)
    (hinv : ∀ cid : Nat,
      (l.countP (fun x => decide (x.generated_certificate_id = cid) && x.active)) ≤ 1) :
    ∀ cid : Nat,
      (((l.filter (fun x => ¬(x.generated_certificate_id = cid₀))) ++ [e]).countP
        (fun x => decide (x.generated_certificate_id = cid) && x.active)) ≤ 1 := by
  intro cid
  rw [List.countP_append]
  by_cases hc : cid = cid₀
  · subst hc
    have h0 : ((l.filter (fun x => ¬(x.generated_certificate_id = cid))).countP
        (fun x => decide (x.generated_certificate_id = cid) && x.active)) = 0 := by
      rw [List.countP_eq_zero]
      intro a ha
      have := (List.mem_filter.mp ha).2
      simp only [decide_eq_true_eq] at this
      simp [this]
    rw [h0]
    have hle := List.countP_le_length
      (p := fun x : InvalidationEntry => decide (x.generated_certificate_id = cid) && x.active)
      (l := [e])
    simpa using hle
  · have h1 : ((l.filter (fun x => ¬(x.generated_certificate_id = cid₀))).countP
        (fun x => decide (x.generated_certificate_id = cid) && x.active)) ≤
        (l.countP (fun x => decide (x.generated_certificate_id = cid) && x.active)) :=
      (List.filter_sublist l).countP_le _
    have h2 : (([e] : List InvalidationEntry).countP
        (fun x => decide (x.generated_certificate_id = cid) && x.active)) = 0 := by
      rw [List.countP_eq_zero]
      intro a ha
      rw [List.mem_singleton] at ha
      subst ha
      have hcc : cid₀ ≠ cid := fun h => hc h.symm
      simp [he, hcc]
    have h3 := hinv cid
    omega

/-- Claim C6: `create_certificate_invalidation_entry` yields an active entry
linked to the given certificate, and the at-most-one-active-invalidation
invariant is preserved by every state-changing operation of the certificate
API: creating an invalidation entry, creating or updating an allowlist
entry, removing an allowlist entry, and toggling course self-generation. -/
theorem claim_C6_invalidation_invariant (s : CertState) (cert : GeneratedCert)
    (staff : Nat) (notes : String) (u : Nat) (c : String) (nts : String)
    (fl en : Bool) :
    (create_certificate_invalidation_entry s cert staff notes).1.generated_certificate_id
        = cert.id ∧
    (create_certificate_invalidation_entry s cert staff notes).1.active = true ∧
    (atMostOneActiveInvalidation s →
      atMostOneActiveInvalidation (create_certificate_invalidation_entry s cert staff notes).2 ∧
      atMostOneActiveInvalidation (create_or_update_certificate_allowlist_entry s u c nts fl).2 ∧
      atMostOneActiveInvalidation (remove_allowlist_entry s u c).2 ∧
      atMostOneActiveInvalidation (set_cert_generation_enabled s c en)) := by
  obtain ⟨hlink, hactive, htable⟩ := create_invalidation_shape s cert staff notes
  refine ⟨hlink, hactive, ?_⟩
  intro hinv
  refine ⟨?_, ?_, ?_, ?_⟩
  · intro cid
    rw [show (create_certificate_invalidation_entry s cert staff notes).2.invalidations =
        (s.invalidations.filter (fun e => ¬(e.generated_certificate_id = cert.id))) ++
          [(create_certificate_invalidation_entry s cert staff notes).1] from htable]
    exact atMostOne_after_replace s.invalidations _ cert.id hlink hinv cid
  · exact hinv
  · intro cid
    rw [remove_allowlist_entry_invalidations]
    exact hinv cid
  · exact hinv

/-- Claim C6, witness: invalidating user 2's certificate in a state
satisfying the invariant yields an active linked entry and a state that
still satisfies it at that certificate id. -/
theorem claim_C6_witness :
    (create_certificate_invalidation_entry stateA certOfUser2 5 "Test!").1.active = true ∧
    (((create_certificate_invalidation_entry stateA certOfUser2 5 "Test!").2.invalidations.countP
      (fun e => decide (e.generated_certificate_id = 7) && e.active)) ≤ 1) := by
  have h := claim_C6_invalidation_invariant stateA certOfUser2 5 "Test!" 1
    "course-v1:edX+Demo+2026" "notes" true true
  exact ⟨h.2.1, (h.2.2 (by intro cid; simp [stateA])).1 7⟩

/-- Claim C7: `is_on_allowlist` holds exactly when an enabled allowlist
entry exists for the user and course-run, and `get_allowlisted_users`
returns exactly the users with an enabled entry for the course. -/
theorem claim_C7_allowlist_characterization (s : CertState) (u : Nat) (c : String) :
    (is_on_allowlist s u c = true ↔
      ∃ e ∈ s.allowlist, e.user = u ∧ e.course_id = c ∧ e.allowlist = true) ∧
    (∀ x : Nat, x ∈ get_allowlisted_users s c ↔
      ∃ e ∈ s.allowlist, e.user = x ∧ e.course_id = c ∧ e.allowlist = true) := by
  constructor
  · simp [is_on_allowlist, List.any_eq_true, and_assoc]
  · intro x
    simp only [get_allowlisted_users, List.mem_map, List.mem_filter,
      Bool.and_eq_true, decide_eq_true_eq]
    constructor
    · rintro ⟨e, ⟨he, hc, ha⟩, hx⟩
      exact ⟨e, he, hx, hc, ha⟩
    · rintro ⟨e, he, hu, hc, ha⟩
      exact ⟨e, ⟨he, hc, ha⟩, hu⟩

/-- Claim C8: removing an allowlist entry returns `True` and deletes the
entry when one exists, marking any generated certificate of that user for
that course `unavailable` while keeping other certificates and the rest of
the state intact; with no entry it returns `False` and changes nothing. -/
theorem claim_C8_remove_allowlist_entry (s : CertState) (u : Nat) (c : String) :
    (get_allowlist_entry s u c = none → remove_allowlist_entry s u c = (false, s)) ∧
    (get_allowlist_entry s u c ≠ none →
      (remove_allowlist_entry s u c).1 = true ∧
      get_allowlist_entry (remove_allowlist_entry s u c).2 u c = none ∧
      (∀ g ∈ s.certificates, g.user = u → g.course_id = c →
        { g with status := CertStatus.unavailable } ∈
          (remove_allowlist_entry s u c).2.certificates) ∧
      (∀ g ∈ s.certificates, ¬(g.user = u ∧ g.course_id = c) →
        g ∈ (remove_allowlist_entry s u c).2.certificates) ∧
      (remove_allowlist_entry s u c).2.invalidations = s.invalidations ∧
      (remove_allowlist_entry s u c).2.genConfigs = s.genConfigs ∧
      (remove_allowlist_entry s u c).2.courseGenSettings = s.courseGenSettings) := by
  cases hfind : s.allowlist.find? (fun e => e.user = u ∧ e.course_id = c) with
  | none =>
    have hrem : remove_allowlist_entry s u c = (false, s) := by
      unfold remove_allowlist_entry
      rw [hfind]
    constructor
    · intro _
      exact hrem
    · intro hne
      exact absurd hfind hne
  | some entry =>
    have hrem : remove_allowlist_entry s u c =
        (true,
         { s with
            allowlist :=
              s.allowlist.filter (fun e => ¬(e.user = u ∧ e.course_id = c)),
            certificates := s.certificates.map (fun g =>
              if g.user = u ∧ g.course_id = c then
                { g with status := CertStatus.unavailable }
              else g) }) := by
      unfold remove_allowlist_entry
      rw [hfind]
    constructor
    · intro hnone
      have : (some entry : Option AllowlistEntry) = none := hfind.symm.trans hnone
      exact absurd this (by simp)
    · intro _
      rw [hrem]
      refine ⟨rfl, ?_, ?_, ?_, rfl, rfl, rfl⟩
      · unfold get_allowlist_entry
        rw [List.find?_eq_none]
        intro e he
        have hnp : ¬e.user = u ∨ ¬e.course_id = c := by
          simpa using (List.mem_filter.mp he).2
        simp only [decide_eq_true_eq, not_and]
        intro hu hc
        cases hnp with
        | inl h => exact h hu
        | inr h => exact h hc
      · intro g hg hu hc
        have hfg : ({ g with status := CertStatus.unavailable } : GeneratedCert) =
            (fun g : GeneratedCert =>
              if g.user = u ∧ g.course_id = c then
                { g with status := CertStatus.unavailable }
              else g) g := by
          simp [hu, hc]
        have hmem := List.mem_map_of_mem (fun g : GeneratedCert =>
            if g.user = u ∧ g.course_id = c then
              { g with status := CertStatus.unavailable }
            else g) hg
        rwa [← hfg] at hmem
      · intro g hg hng
        have hfg : (fun g : GeneratedCert =>
            if g.user = u ∧ g.course_id = c then
              { g with status := CertStatus.unavailable }
            else g) g = g := by
          simp [hng]
        have hmem := List.mem_map_of_mem (fun g : GeneratedCert =>
            if g.user = u ∧ g.course_id = c then
              { g with status := CertStatus.unavailable }
            else g) hg
        rwa [hfg] at hmem

/-- Claim C8, witness: removing user 1's allowlist entry in a state where
user 1 also holds a downloadable certificate returns `True`, deletes the
entry and marks the certificate `unavailable`; removing again (no entry
left) returns `False` and changes nothing further. -/
theorem claim_C8_witness :
    (remove_allowlist_entry stateB 1 "course-v1:edX+Demo+2026").1 = true ∧
    get_allowlist_entry (remove_allowlist_entry stateB 1 "course-v1:edX+Demo+2026").2
      1 "course-v1:edX+Demo+2026" = none ∧
    ({ certOfUser1 with status := CertStatus.unavailable } : GeneratedCert) ∈
      (remove_allowlist_entry stateB 1 "course-v1:edX+Demo+2026").2.certificates ∧
    remove_allowlist_entry stateA 1 "course-v1:edX+Other+2026" = (false, stateA) := by
  have hB := claim_C8_remove_allowlist_entry stateB 1 "course-v1:edX+Demo+2026"
  have hA := claim_C8_remove_allowlist_entry stateA 1 "course-v1:edX+Other+2026"
  have h := hB.2 (by decide)
  exact ⟨h.1, h.2.1, h.2.2.1 certOfUser1 (by decide) rfl rfl, hA.1 (by decide)⟩

/-- Claim C9: certificate generation is enabled for a course exactly when
the newest global configuration row is enabled and the newest
self-generation setting recorded for that course is enabled; setting a
course twice makes the latest setting win, and setting one course does not
affect another. -/
theorem claim_C9_cert_generation_enabled (s : CertState) (c c' : String)
    (b₁ b₂ : Bool) :
    (cert_generation_enabled s c = true ↔
      currentGenConfigEnabled s = true ∧
        (s.courseGenSettings.find? (fun p => p.1 = c)).map Prod.snd = some true) ∧
    (cert_generation_enabled
        (set_cert_generation_enabled (set_cert_generation_enabled s c b₁) c b₂) c =
      (currentGenConfigEnabled s && b₂)) ∧
    (c' ≠ c →
      cert_generation_enabled (set_cert_generation_enabled s c b₁) c' =
        cert_generation_enabled s c') := by
  refine ⟨?_, ?_, ?_⟩
  · simp only [cert_generation_enabled, latestCourseGenSetting, Bool.and_eq_true]
    cases hfind : s.courseGenSettings.find? (fun p => p.1 = c) with
    | none => simp
    | some pr => simp
  · simp [cert_generation_enabled, set_cert_generation_enabled,
      currentGenConfigEnabled, latestCourseGenSetting, List.find?_cons]
  · intro hne
    simp [cert_generation_enabled, set_cert_generation_enabled,
      currentGenConfigEnabled, latestCourseGenSetting, List.find?_cons,
      Ne.symm hne]

/-- Claim C9, witness: with the global configuration enabled, enabling then
disabling one course leaves generation disabled there, and enabling that
course does not enable a different course. -/
theorem claim_C9_witness :
    (cert_generation_enabled
        (set_cert_generation_enabled
          (set_cert_generation_enabled stateA "course-v1:edX+Demo+2026" true)
          "course-v1:edX+Demo+2026" false) "course-v1:edX+Demo+2026" =
      (currentGenConfigEnabled stateA && false)) ∧
    cert_generation_enabled
        (set_cert_generation_enabled stateA "course-v1:edX+Demo+2026" true)
        "course-v1:edX+Other+2026" =
      cert_generation_enabled stateA "course-v1:edX+Other+2026" := by
  have h := claim_C9_cert_generation_enabled stateA "course-v1:edX+Demo+2026"
    "course-v1:edX+Other+2026" true false
  exact ⟨(claim_C9_cert_generation_enabled stateA "course-v1:edX+Demo+2026"
    "course-v1:edX+Other+2026" true false).2.1, h.2.2 (by decide)⟩

/-- Claim C10: `certificate_downloadable_status` reports a certificate whose
status is `error` exactly as one whose status is `generating`:
`is_generating` true, `is_downloadable` false, no download URL and no uuid,
so the two cases are indistinguishable through this result. -/
theorem claim_C10_error_reports_generating (s : CertState) (u : Nat) (c : String)
    (g : GeneratedCert) (hfind : get_certificate_for_user s u c = some g) :
    (g.status = CertStatus.error →
      certificate_downloadable_status s u c =
        { is_downloadable := false, is_generating := true, is_unverified := false,
          download_url := none, uuid := none }) ∧
    (g.status = CertStatus.generating →
      certificate_downloadable_status s u c =
        { is_downloadable := false, is_generating := true, is_unverified := false,
          download_url := none, uuid := none }) := by
  constructor
  · intro hs
    simp [certificate_downloadable_status, hfind, hs]
  · intro hs
    simp [certificate_downloadable_status, hfind, hs]

/-- Claim C10, witness: user 1's errored certificate reports the same
summary as a generating one. -/
theorem claim_C10_witness :
    certificate_downloadable_status stateErr 1 "course-v1:edX+Demo+2026" =
      { is_downloadable := false, is_generating := true, is_unverified := false,
        download_url := none, uuid := none } :=
  (claim_C10_error_reports_generating stateErr 1 "course-v1:edX+Demo+2026"
    { id := 4, user := 1, course_id := "course-v1:edX+Demo+2026",
      status := CertStatus.error, download_url := "", verify_uuid := "" }
    (by decide)).1 rfl

end ClaimTheorems
